import Mathlib

/-!
Verification development for the Unspoken NG spatial audio engine.

The development shallowly embeds the audio engine of
`addon/globalPlugins/Unspoken/openal_audio.py` (class `OpenALLoopback`) and
the playback scheduling logic of `addon/globalPlugins/Unspoken/__init__.py`
(`_play_object_async` / `_play_sound_async`).

Modelling conventions:
* Python floats are modelled as exact rationals (`ℚ`); the only irrational
  computation (the sine/cosine source positioning) is modelled over `ℝ`.
* Python `int(x)` (truncation toward zero) is `pytrunc`.
* Native OpenAL calls mutate native objects, not Python state; the values the
  engine hands to the native layer (`alEffectf`, `alSourcef`, `alBufferData`,
  `alcRenderSamplesSOFT`) are mirrored in explicit state fields and in the
  `RenderResult` record, so theorems can speak about them.  The audio content
  produced by the native renderer is outside the model; only the size of the
  caller-allocated output buffer (`bytes(out_buf)`) is represented.
* The concurrent playback scheduler is modelled as a labelled transition
  system: one `submit` per playback request (main thread), and one worker per
  request walking through the phases of `_play_sound_async`.
-/

namespace Unspoken

/-- Python `int(x)`: truncation toward zero. -/
def pytrunc (q : ℚ) : ℤ := if 0 ≤ q then ⌊q⌋ else ⌈q⌉

/-- Python-level state of an `OpenALLoopback` instance (openal_audio.py).

`decay_time`, `gainhf`, `gain` and `diffusion` mirror the values last handed
to the native reverb effect via `alEffectf` (their pre-`set_reverb_settings`
native defaults are not modelled and are initialised to 0 here). -/
structure EngineState where
  dllLoaded : Bool
  initialized : Bool
  device_open : Bool
  context_open : Bool
  sample_rate : ℕ
  frame_size : ℕ
  dry_level : ℚ
  reverb_enabled : Bool
  reverb_tail_frames : ℤ
  decay_time : ℚ
  gainhf : ℚ
  gain : ℚ
  diffusion : ℚ
deriving DecidableEq

/-- `OpenALLoopback.__init__`: fresh engine state after construction.
`dllLoaded` records whether loading `soft_oal.dll` succeeded. -/
def mkEngine (dllLoaded : Bool) : EngineState :=
  { dllLoaded := dllLoaded
    initialized := false
    device_open := false
    context_open := false
    sample_rate := 44100
    frame_size := 1024
    dry_level := 3/10
    reverb_enabled := false
    reverb_tail_frames := 0
    decay_time := 0
    gainhf := 0
    gain := 0
    diffusion := 0 }

/-- `OpenALLoopback.initialize(sample_rate, frame_size)`.  The outcomes of the
native calls (`alcLoopbackOpenDeviceSOFT`, `alcIsRenderFormatSupportedSOFT`,
`alcCreateContext`) are environment inputs `deviceOk`, `formatOk`,
`contextOk`.  Returns the new state and the boolean result. -/
def initializeEngine (st : EngineState) (deviceOk formatOk contextOk : Bool)
    (sample_rate frame_size : ℕ) : EngineState × Bool :=
  if st.dllLoaded = false then (st, false)
  else if st.initialized = true then (st, true)
  else if deviceOk = false then (st, false)
  else if formatOk = false then (st, false)
  else if contextOk = false then (st, false)
  else
    ({ st with
        device_open := true
        context_open := true
        sample_rate := sample_rate
        frame_size := frame_size
        initialized := true }, true)

/-- `OpenALLoopback.cleanup`: releases native objects, destroys context and
device, and clears `initialized`; returns immediately when not initialized. -/
def cleanup (st : EngineState) : EngineState :=
  if st.initialized = false then st
  else
    { st with
        context_open := false
        device_open := false
        initialized := false }

/-- `OpenALLoopback.set_reverb_settings(room_size, damping, wet_level,
dry_level, width)` (openal_audio.py lines 323-363).  No clamping is applied:
the mapped values are computed from the raw arguments, and `dry_level` is
stored as given.  Returns the new state and the boolean result. -/
def set_reverb_settings (st : EngineState)
    (room_size damping wet_level dry_level width : ℚ) : EngineState × Bool :=
  if st.dllLoaded = false then (st, false)
  else if st.initialized = false then (st, false)
  else
    let decay_time := 1/10 + room_size * (39/10)
    let gainhf := 1 - damping * (9/10)
    let gain := wet_level * (1/2)
    let diffusion := width
    ({ st with
        dry_level := dry_level
        decay_time := decay_time
        gainhf := gainhf
        gain := gain
        diffusion := diffusion
        reverb_tail_frames := pytrunc (decay_time * (st.sample_rate : ℚ) * 2) },
      true)

/-- `OpenALLoopback.enable_reverb(enabled)` (openal_audio.py lines 365-369):
sets the flag, and zeroes the cached tail frame count when disabling. -/
def enable_reverb (st : EngineState) (enabled : Bool) : EngineState :=
  let st1 := { st with reverb_enabled := enabled }
  if enabled then st1 else { st1 with reverb_tail_frames := 0 }

/-- `OpenALLoopback._float_to_int16`, per sample: clamp the float sample to
[-1, 1], multiply by 32767, truncate toward zero (Python `int()`). -/
def float_to_int16_sample (s : ℚ) : ℤ :=
  pytrunc (max (-1) (min 1 s) * 32767)

/-- `OpenALLoopback._float_to_int16`: elementwise conversion of the sample
list to int16 PCM. -/
def float_to_int16 (float_samples : List ℚ) : List ℤ :=
  float_samples.map float_to_int16_sample

/-- The conversion as worded by the spec for claim C6 (to be compared with
`float_to_int16_sample`): multiply the sample by 32767 and clamp the product
to [-32768, 32767]. -/
def specFloatToInt16Sample (s : ℚ) : ℤ :=
  max (-32768) (min 32767 (pytrunc (s * 32767)))

/-- Record of one `process_sound` render pass: the values handed to the
native layer, and the size of the returned byte buffer. -/
structure RenderResult where
  uploadedPCM : List ℤ
  sourceGain : ℚ
  reverbRouted : Bool
  framesRequested : ℤ
  outputByteLength : ℤ
deriving DecidableEq

/-- `OpenALLoopback.process_sound(input_samples, angle_x, angle_y)`
(openal_audio.py lines 371-448).  Returns `none` when the DLL failed to load
or the engine is not initialized; otherwise records the PCM uploaded via
`alBufferData`, the source gain set via `alSourcef AL_GAIN` (always the
stored `_dry_level`), whether the auxiliary send was routed to the effect
slot, the frame count requested from `alcRenderSamplesSOFT`
(`num_input_frames + tail`), and the byte length of `bytes(out_buf)` where
`out_buf` is an array of `num_frames * 2` 16-bit samples.  The source
position handed to `alSource3f` is `sourcePosition angle_x angle_y` (modelled
separately below, as it is the only real-valued computation).  `process_sound`
mutates no Python-level engine state. -/
def process_sound (st : EngineState) (input_samples : List ℚ)
    (angle_x angle_y : ℝ) : Option RenderResult :=
  if st.dllLoaded = false then none
  else if st.initialized = false then none
  else
    let tail_frames : ℤ := if st.reverb_enabled then st.reverb_tail_frames else 0
    let num_frames : ℤ := (input_samples.length : ℤ) + tail_frames
    some { uploadedPCM := float_to_int16 input_samples
           sourceGain := st.dry_level
           reverbRouted := st.reverb_enabled
           framesRequested := num_frames
           outputByteLength := 2 * (num_frames * 2) }

/-- `math.radians`: degrees to radians. -/
noncomputable def radians (d : ℝ) : ℝ := d * Real.pi / 180

/-- The source position computed in `process_sound` (openal_audio.py lines
414-418) and handed to `alSource3f AL_POSITION`:
`pos_x = sin(rad_x) * cos(rad_y)`, `pos_y = sin(rad_y)`,
`pos_z = -cos(rad_x) * cos(rad_y)`. -/
noncomputable def sourcePosition (angle_x angle_y : ℝ) : ℝ × ℝ × ℝ :=
  (Real.sin (radians angle_x) * Real.cos (radians angle_y),
   Real.sin (radians angle_y),
   -Real.cos (radians angle_x) * Real.cos (radians angle_y))

/-- `OpenALLoopback.apply_reverb(input_buffer)` (openal_audio.py lines
450-454): returns its argument unchanged and touches no engine state. -/
def apply_reverb (st : EngineState) (input_buffer : List ℤ) :
    EngineState × List ℤ :=
  (st, input_buffer)

/-- The per-sample volume scaling performed by `_play_sound_async`
(`__init__.py` line 358) before handing audio to `process_sound`. -/
def adjust_volume (audio_data : List ℚ) (volume : ℚ) : List ℚ :=
  audio_data.map (fun sample => sample * volume)

/-- A concrete initialized engine state used by witnesses: the state reached
by constructing the engine with the DLL loaded and running a successful
`initialize()` at the defaults. -/
def sampleEngine : EngineState :=
  (initializeEngine (mkEngine true) true true true 44100 1024).1

/-- Truncation toward zero of an integer-valued rational is that integer. -/
theorem pytrunc_intCast (z : ℤ) : pytrunc ((z : ℚ)) = z := by
  unfold pytrunc
  by_cases h : 0 ≤ ((z : ℚ))
  · simp [h, Int.floor_intCast]
  · simp [h, Int.ceil_intCast]

/-- Truncation toward zero lies between the floor and the ceiling, so a
two-sided bound on the rational bounds the truncation. -/
theorem pytrunc_bounds {q : ℚ} {n : ℤ} (hl : -(n : ℚ) ≤ q) (hu : q ≤ (n : ℚ)) :
    -n ≤ pytrunc q ∧ pytrunc q ≤ n := by
  have hfl : -n ≤ ⌊q⌋ := Int.le_floor.2 (by push_cast; exact hl)
  have hcu : ⌈q⌉ ≤ n := Int.ceil_le.2 hu
  unfold pytrunc
  by_cases h : 0 ≤ q
  · simp only [if_pos h]
    exact ⟨hfl, le_trans (Int.floor_le_ceil q) hcu⟩
  · simp only [if_neg h]
    exact ⟨le_trans hfl (Int.floor_le_ceil q), hcu⟩

/-- C2 counterexample: calling `set_reverb_settings` on an initialized engine
with `dry_level = 2` (outside [0,1]) stores `2` unclamped, so the stored
reverb state is not always within [0,1]. -/
theorem c2_counterexample :
    (set_reverb_settings sampleEngine 0 0 0 2 0).1.dry_level = 2 ∧
    ¬ ((2 : ℚ) ≤ 1) := by
  constructor
  · rfl
  · norm_num

/-- C2 (amended): `set_reverb_settings` applies no clamping.  On an
initialized engine it stores `dry_level` exactly as passed, so the stored
value lies in [0,1] exactly when the caller already passes a value in [0,1]
(which the configuration mapping, dividing 0-100 integers by 100, does). -/
theorem c2_set_reverb_settings_no_clamp (st : EngineState)
    (room_size damping wet_level dry_level width : ℚ)
    (hdll : st.dllLoaded = true) (hinit : st.initialized = true) :
    (set_reverb_settings st room_size damping wet_level dry_level width).1.dry_level
        = dry_level ∧
    (0 ≤ dry_level → dry_level ≤ 1 →
      0 ≤ (set_reverb_settings st room_size damping wet_level dry_level width).1.dry_level ∧
      (set_reverb_settings st room_size damping wet_level dry_level width).1.dry_level ≤ 1) := by
  unfold set_reverb_settings
  simp [hdll, hinit]
  exact fun h0 h1 => ⟨h0, h1⟩

/-- C2 witness: on the sample engine, `dry_level = 1/2` is stored verbatim
and lies in [0,1]. -/
theorem c2_witness :
    0 ≤ (set_reverb_settings sampleEngine 0 0 0 (1/2) 0).1.dry_level ∧
    (set_reverb_settings sampleEngine 0 0 0 (1/2) 0).1.dry_level ≤ 1 :=
  (c2_set_reverb_settings_no_clamp sampleEngine 0 0 0 (1/2) 0 rfl rfl).2
    (by norm_num) (by norm_num)

/-- C3 counterexample: on `sampleEngine` reverb is disabled and the stored
dry level is 3/10; a render pass sets the source gain to 3/10, which differs
from a request volume gain of 1, so the gain is not set to the request's
volume gain when reverb is disabled. -/
theorem c3_counterexample :
    (process_sound sampleEngine [1/2] 0 0).map RenderResult.sourceGain = some (3/10) ∧
    sampleEngine.reverb_enabled = false ∧
    (3/10 : ℚ) ≠ 1 := by
  refine ⟨rfl, rfl, by norm_num⟩

/-- C3 (amended): on every successful render pass the source gain handed to
`alSourcef AL_GAIN` is the stored `_dry_level`, whether or not reverb is
enabled; the request volume is instead pre-applied by `_play_sound_async`
scaling the samples (`adjust_volume`).  The auxiliary effect send is routed
exactly when reverb is enabled. -/
theorem c3_source_gain_always_dry_level (st : EngineState) (input : List ℚ)
    (angle_x angle_y : ℝ) (r : RenderResult)
    (h : process_sound st input angle_x angle_y = some r) :
    r.sourceGain = st.dry_level ∧ r.reverbRouted = st.reverb_enabled := by
  unfold process_sound at h
  by_cases h1 : st.dllLoaded = false
  · simp [h1] at h
  by_cases h2 : st.initialized = false
  · simp [h1, h2] at h
  simp only [h1, h2, if_false] at h
  cases h
  exact ⟨rfl, rfl⟩

/-- C3 witness: the theorem applied to a concrete render pass on
`sampleEngine`. -/
theorem c3_witness :
    RenderResult.sourceGain ⟨float_to_int16 [1/2], 3/10, false, 1, 4⟩
        = sampleEngine.dry_level ∧
    RenderResult.reverbRouted ⟨float_to_int16 [1/2], 3/10, false, 1, 4⟩
        = sampleEngine.reverb_enabled :=
  c3_source_gain_always_dry_level sampleEngine [1/2] 0 0
    ⟨float_to_int16 [1/2], 3/10, false, 1, 4⟩ rfl

/-- C4: the reverb mapping computes `decay_time = 0.1 + room_size * 3.9`,
`gainhf = 1 - damping * 0.9`, `gain = wet_level * 0.5`, `diffusion = width`;
for inputs in [0,1] the decay time lies in [0.1, 4] and `gainhf` in [0.1, 1];
and at the defaults `room_size = 0.1`, `damping = 1`, `wet_level = 0.09` the
stored values are `decay_time = 0.49`, `gainhf = 0.1`, `gain = 0.045`. -/
theorem c4_reverb_mapping :
    (∀ (st : EngineState) (room_size damping wet_level dry_level width : ℚ),
      st.dllLoaded = true → st.initialized = true →
      ((set_reverb_settings st room_size damping wet_level dry_level width).1.decay_time
          = 1/10 + room_size * (39/10) ∧
        (set_reverb_settings st room_size damping wet_level dry_level width).1.gainhf
          = 1 - damping * (9/10) ∧
        (set_reverb_settings st room_size damping wet_level dry_level width).1.gain
          = wet_level * (1/2) ∧
        (set_reverb_settings st room_size damping wet_level dry_level width).1.diffusion
          = width) ∧
      (0 ≤ room_size → room_size ≤ 1 →
        1/10 ≤ (set_reverb_settings st room_size damping wet_level dry_level width).1.decay_time ∧
        (set_reverb_settings st room_size damping wet_level dry_level width).1.decay_time ≤ 4) ∧
      (0 ≤ damping → damping ≤ 1 →
        1/10 ≤ (set_reverb_settings st room_size damping wet_level dry_level width).1.gainhf ∧
        (set_reverb_settings st room_size damping wet_level dry_level width).1.gainhf ≤ 1)) ∧
    ((set_reverb_settings sampleEngine (1/10) 1 (9/100) (3/10) 1).1.decay_time = 49/100 ∧
      (set_reverb_settings sampleEngine (1/10) 1 (9/100) (3/10) 1).1.gainhf = 1/10 ∧
      (set_reverb_settings sampleEngine (1/10) 1 (9/100) (3/10) 1).1.gain = 9/200) := by
  constructor
  · intro st room_size damping wet_level dry_level width hdll hinit
    unfold set_reverb_settings
    simp only [hdll, hinit, Bool.true_eq_false, if_false]
    refine ⟨⟨by trivial, by trivial, by trivial, by trivial⟩, ?_, ?_⟩
    · intro h0 h1
      constructor <;> nlinarith
    · intro h0 h1
      constructor <;> nlinarith
  · refine ⟨?_, ?_, ?_⟩ <;> norm_num [set_reverb_settings, sampleEngine,
      initializeEngine, mkEngine]

/-- C4 witness: the range bounds applied at a concrete in-range input. -/
theorem c4_witness :
    1/10 ≤ (set_reverb_settings sampleEngine (1/2) (1/2) 0 0 0).1.decay_time ∧
    (set_reverb_settings sampleEngine (1/2) (1/2) 0 0 0).1.decay_time ≤ 4 :=
  ((c4_reverb_mapping.1 sampleEngine (1/2) (1/2) 0 0 0 rfl rfl).2.1)
    (by norm_num) (by norm_num)

/-- C5: for angles in [-90, 90] degrees the source position computed by the
render pass is a unit vector, and at `angle_x = 90, angle_y = 0` it is
exactly (1, 0, 0). -/
theorem c5_unit_direction :
    (∀ angle_x angle_y : ℝ,
      -90 ≤ angle_x → angle_x ≤ 90 → -90 ≤ angle_y → angle_y ≤ 90 →
      (sourcePosition angle_x angle_y).1 ^ 2 +
        (sourcePosition angle_x angle_y).2.1 ^ 2 +
        (sourcePosition angle_x angle_y).2.2 ^ 2 = 1) ∧
    sourcePosition 90 0 = (1, 0, 0) := by
  constructor
  · intro ax ay _ _ _ _
    have h1 := Real.sin_sq_add_cos_sq (radians ax)
    have h2 := Real.sin_sq_add_cos_sq (radians ay)
    simp only [sourcePosition]
    linear_combination (Real.cos (radians ay)) ^ 2 * h1 + h2
  · have h90 : radians 90 = Real.pi / 2 := by unfold radians; ring
    have h0 : radians 0 = 0 := by unfold radians; ring
    simp [sourcePosition, h90, h0, Real.sin_pi_div_two, Real.cos_pi_div_two]

/-- C5 witness: the unit-magnitude property applied at angles (0, 0). -/
theorem c5_witness :
    (sourcePosition 0 0).1 ^ 2 + (sourcePosition 0 0).2.1 ^ 2 +
      (sourcePosition 0 0).2.2 ^ 2 = 1 :=
  c5_unit_direction.1 0 0 (by norm_num) (by norm_num) (by norm_num) (by norm_num)

/-- C6 counterexample: at the out-of-range sample -2 the code clamps the
sample to -1 first and produces -32767, while the claimed
multiply-then-clamp-the-product formula produces -32768. -/
theorem c6_counterexample :
    float_to_int16_sample (-2) = -32767 ∧
    specFloatToInt16Sample (-2) = -32768 ∧
    float_to_int16_sample (-2) ≠ specFloatToInt16Sample (-2) := by
  have hclamp : max (-1 : ℚ) (min 1 (-2)) = -1 := by
    rw [min_eq_right (by norm_num : (-2 : ℚ) ≤ 1),
      max_eq_left (by norm_num : (-2 : ℚ) ≤ -1)]
  have h1 : float_to_int16_sample (-2) = -32767 := by
    unfold float_to_int16_sample
    rw [hclamp, (by norm_num : ((-1 : ℚ) * 32767) = ((-32767 : ℤ) : ℚ)),
      pytrunc_intCast]
  have h2 : specFloatToInt16Sample (-2) = -32768 := by
    unfold specFloatToInt16Sample
    rw [(by norm_num : ((-2 : ℚ) * 32767) = ((-65534 : ℤ) : ℚ)), pytrunc_intCast,
      min_eq_right (by norm_num : (-65534 : ℤ) ≤ 32767),
      max_eq_left (by norm_num : (-65534 : ℤ) ≤ -32768)]
  exact ⟨h1, h2, by rw [h1, h2]; norm_num⟩

/-- C6 (amended): the conversion clamps the sample to [-1, 1] before
multiplying by 32767 and truncating toward zero, so every output lies in
[-32767, 32767] (`-32768` is never produced), and on samples within [-1, 1]
it coincides with the spec-worded multiply-then-clamp formula. -/
theorem c6_float_to_int16 (s : ℚ) :
    (-32767 ≤ float_to_int16_sample s ∧ float_to_int16_sample s ≤ 32767) ∧
    (-1 ≤ s → s ≤ 1 → float_to_int16_sample s = specFloatToInt16Sample s) := by
  have hc1 : -1 ≤ max (-1) (min 1 s) := le_max_left _ _
  have hc2 : max (-1) (min 1 s) ≤ 1 := max_le (by norm_num) (min_le_left _ _)
  have hb := pytrunc_bounds (q := max (-1) (min 1 s) * 32767) (n := 32767)
    (by push_cast; nlinarith) (by push_cast; nlinarith)
  constructor
  · exact hb
  · intro hl hu
    have hclamp : max (-1) (min 1 s) = s := by
      rw [min_eq_right hu, max_eq_right hl]
    have hb2 := pytrunc_bounds (q := s * 32767) (n := 32767)
      (by push_cast; nlinarith) (by push_cast; nlinarith)
    unfold float_to_int16_sample specFloatToInt16Sample
    rw [hclamp, min_eq_right hb2.2, max_eq_right (by linarith [hb2.1])]

/-- C6 witness: the agreement on in-range samples applied at 1/2. -/
theorem c6_witness :
    float_to_int16_sample (1/2) = specFloatToInt16Sample (1/2) :=
  (c6_float_to_int16 (1/2)).2 (by norm_num) (by norm_num)

/-- C7: a successful render pass requests exactly
`input length + tail` frames, with the tail being the cached
`_reverb_tail_frames` when reverb is enabled and 0 when disabled, and the
byte buffer returned has exactly `4 * frames` bytes; `set_reverb_settings`
caches the tail as `int(decay_time * sample_rate * 2)`. -/
theorem c7_render_frames :
    (∀ (st : EngineState) (input : List ℚ) (angle_x angle_y : ℝ) (r : RenderResult),
      process_sound st input angle_x angle_y = some r →
      r.framesRequested
          = (input.length : ℤ) + (if st.reverb_enabled then st.reverb_tail_frames else 0) ∧
      r.outputByteLength = 4 * r.framesRequested) ∧
    (∀ (st : EngineState) (room_size damping wet_level dry_level width : ℚ),
      st.dllLoaded = true → st.initialized = true →
      (set_reverb_settings st room_size damping wet_level dry_level width).1.reverb_tail_frames
        = pytrunc ((1/10 + room_size * (39/10)) * (st.sample_rate : ℚ) * 2)) := by
  constructor
  · intro st input angle_x angle_y r h
    unfold process_sound at h
    by_cases h1 : st.dllLoaded = false
    · simp [h1] at h
    by_cases h2 : st.initialized = false
    · simp [h1, h2] at h
    simp only [h1, h2, if_false] at h
    cases h
    exact ⟨rfl, by simp only []; ring⟩
  · intro st room_size damping wet_level dry_level width hdll hinit
    unfold set_reverb_settings
    simp only [hdll, hinit, Bool.true_eq_false, if_false]

/-- C7 witness: the frame-count property applied to a concrete render pass. -/
theorem c7_witness :
    RenderResult.framesRequested ⟨float_to_int16 [1/2], 3/10, false, 1, 4⟩
        = (List.length [(1 : ℚ)/2] : ℤ) +
          (if sampleEngine.reverb_enabled then sampleEngine.reverb_tail_frames else 0) ∧
    RenderResult.outputByteLength ⟨float_to_int16 [1/2], 3/10, false, 1, 4⟩
        = 4 * RenderResult.framesRequested ⟨float_to_int16 [1/2], 3/10, false, 1, 4⟩ :=
  c7_render_frames.1 sampleEngine [1/2] 0 0
    ⟨float_to_int16 [1/2], 3/10, false, 1, 4⟩ rfl

/-- C8: `cleanup` is idempotent, and on an engine that is not initialized
(including one on which `initialize` never succeeded) it is a no-op leaving
the state unchanged. -/
theorem c8_cleanup_idempotent :
    (∀ st : EngineState, cleanup (cleanup st) = cleanup st) ∧
    (∀ st : EngineState, st.initialized = false → cleanup st = st) := by
  constructor
  · intro st
    unfold cleanup
    by_cases h : st.initialized = false <;> simp [h]
  · intro st h
    unfold cleanup
    simp [h]

/-- C8 witness: `cleanup` before a successful initialize is a no-op on the
freshly constructed engine. -/
theorem c8_witness : cleanup (mkEngine true) = mkEngine true :=
  c8_cleanup_idempotent.2 (mkEngine true) rfl

/-- C9: `apply_reverb` is the identity: it returns its input buffer unchanged
and leaves the engine state untouched. -/
theorem c9_apply_reverb_id :
    ∀ (st : EngineState) (input_buffer : List ℤ),
      apply_reverb st input_buffer = (st, input_buffer) :=
  fun _ _ => rfl

/-- C10: `enable_reverb true` only sets the enabled flag (in particular the
cached tail frame count is untouched and never recomputed),
`enable_reverb false` zeroes the cached tail, and after disabling then
re-enabling reverb every render pass requests a tail of 0 frames. -/
theorem c10_enable_reverb_tail :
    (∀ st : EngineState, enable_reverb st true = { st with reverb_enabled := true }) ∧
    (∀ st : EngineState, enable_reverb st false
        = { st with reverb_enabled := false, reverb_tail_frames := 0 }) ∧
    (∀ (st : EngineState) (input : List ℚ) (angle_x angle_y : ℝ) (r : RenderResult),
      process_sound (enable_reverb (enable_reverb st false) true) input angle_x angle_y
          = some r →
      r.framesRequested = (input.length : ℤ)) := by
  refine ⟨fun st => rfl, fun st => rfl, ?_⟩
  intro st input angle_x angle_y r h
  unfold enable_reverb process_sound at h
  by_cases h1 : st.dllLoaded = false
  · simp [h1] at h
  by_cases h2 : st.initialized = false
  · simp [h1, h2] at h
  simp only [h1, h2, if_false, if_true] at h
  cases h
  simp

/-- C10 witness: a render pass after disable-then-enable on the sample
engine requests exactly the input length. -/
theorem c10_witness :
    RenderResult.framesRequested ⟨float_to_int16 [1/2], 3/10, true, 1, 4⟩
        = (List.length [(1 : ℚ)/2] : ℤ) :=
  c10_enable_reverb_tail.2.2 sampleEngine [1/2] 0 0
    ⟨float_to_int16 [1/2], 3/10, true, 1, 4⟩ rfl

/-! ## Playback scheduler (`__init__.py`, `_play_object_async` and
`_play_sound_async`)

`_play_object_async` runs on the main thread: it increments
`self._sound_generation`, captures the new value as `my_generation`, and
spawns a daemon thread running `_play_sound_async`.  The worker renders, then
(1) checks `generation != self._sound_generation` and silently returns if
stale, (2) calls `wave_player.stop()` without holding the lock, (3) acquires
`self._wave_player_lock`, (4) re-checks the generation under the lock and
returns if stale, and only then (5) calls `wave_player.feed(final_audio)`.

The model is a labelled transition system: any interleaving of submits and
worker steps is a behaviour, which over-approximates the real scheduler
(submits happen on the main thread; generation increments are not protected
by the wave-player lock, exactly as in the code). -/

/-- Control point of one `_play_sound_async` worker. -/
inductive Phase
  | rendering
  | rendered
  | passedCheck1
  | stopped
  | locked
  | passedCheck2
  | done
deriving DecidableEq

/-- One worker thread: the generation captured at submit time
(`my_generation`) and its current control point. -/
structure Worker where
  myGen : ℕ
  phase : Phase
deriving DecidableEq

/-- Shared scheduler state: `self._sound_generation`, the next worker id, the
holder of `self._wave_player_lock`, and the workers spawned so far. -/
structure SchedState where
  soundGeneration : ℕ
  nextId : ℕ
  lockHeld : Option ℕ
  workers : ℕ → Option Worker

/-- Scheduler state at plugin construction: generation 0, no workers, lock
free. -/
def initSched : SchedState :=
  { soundGeneration := 0, nextId := 0, lockHeld := none, workers := fun _ => none }

/-- Observable events of the scheduler. -/
inductive Label
  | submit (gen : ℕ)
  | finishRender (w : ℕ)
  | check1 (w : ℕ) (gen : ℕ) (pass : Bool)
  | stopSink (w : ℕ)
  | acquire (w : ℕ)
  | check2 (w : ℕ) (gen : ℕ) (pass : Bool)
  | feed (w : ℕ) (gen : ℕ)
deriving DecidableEq

/-- One atomic transition of the scheduler.  `submit` is
`_play_object_async` (increment the shared counter, capture it, spawn a
worker); the remaining constructors are the successive statements of
`_play_sound_async` for one worker.  `stopSink` needs no lock; `check2` and
`feed` require holding it. -/
inductive Step : SchedState → Label → SchedState → Prop
  | submit (s : SchedState) :
      Step s (.submit (s.soundGeneration + 1))
        { soundGeneration := s.soundGeneration + 1
          nextId := s.nextId + 1
          lockHeld := s.lockHeld
          workers := Function.update s.workers s.nextId
            (some ⟨s.soundGeneration + 1, .rendering⟩) }
  | finishRender (s : SchedState) (w g : ℕ)
      (hw : s.workers w = some ⟨g, .rendering⟩) :
      Step s (.finishRender w)
        { s with workers := Function.update s.workers w (some ⟨g, .rendered⟩) }
  | check1Pass (s : SchedState) (w g : ℕ)
      (hw : s.workers w = some ⟨g, .rendered⟩) (hg : g = s.soundGeneration) :
      Step s (.check1 w g true)
        { s with workers := Function.update s.workers w (some ⟨g, .passedCheck1⟩) }
  | check1Fail (s : SchedState) (w g : ℕ)
      (hw : s.workers w = some ⟨g, .rendered⟩) (hg : g ≠ s.soundGeneration) :
      Step s (.check1 w g false)
        { s with workers := Function.update s.workers w (some ⟨g, .done⟩) }
  | stopSink (s : SchedState) (w g : ℕ)
      (hw : s.workers w = some ⟨g, .passedCheck1⟩) :
      Step s (.stopSink w)
        { s with workers := Function.update s.workers w (some ⟨g, .stopped⟩) }
  | acquire (s : SchedState) (w g : ℕ)
      (hw : s.workers w = some ⟨g, .stopped⟩) (hl : s.lockHeld = none) :
      Step s (.acquire w)
        { s with lockHeld := some w
                 workers := Function.update s.workers w (some ⟨g, .locked⟩) }
  | check2Pass (s : SchedState) (w g : ℕ)
      (hw : s.workers w = some ⟨g, .locked⟩) (hl : s.lockHeld = some w)
      (hg : g = s.soundGeneration) :
      Step s (.check2 w g true)
        { s with workers := Function.update s.workers w (some ⟨g, .passedCheck2⟩) }
  | check2Fail (s : SchedState) (w g : ℕ)
      (hw : s.workers w = some ⟨g, .locked⟩) (hl : s.lockHeld = some w)
      (hg : g ≠ s.soundGeneration) :
      Step s (.check2 w g false)
        { s with lockHeld := none
                 workers := Function.update s.workers w (some ⟨g, .done⟩) }
  | feed (s : SchedState) (w g : ℕ)
      (hw : s.workers w = some ⟨g, .passedCheck2⟩) (hl : s.lockHeld = some w) :
      Step s (.feed w g)
        { s with lockHeld := none
                 workers := Function.update s.workers w (some ⟨g, .done⟩) }

/-- Finite executions from a start state, as snoc-lists of steps. -/
inductive Steps (s₀ : SchedState) : List Label → SchedState → Prop
  | refl : Steps s₀ [] s₀
  | snoc {tr : List Label} {s' s'' : SchedState} {l : Label} :
      Steps s₀ tr s' → Step s' l s'' → Steps s₀ (tr ++ [l]) s''

/-- A trace the scheduler can produce from its initial state. -/
def SchedReaches (tr : List Label) : Prop :=
  ∃ s, Steps initSched tr s

/-- The generation counter never decreases across one step. -/
theorem Step.gen_le {s : SchedState} {l : Label} {s' : SchedState}
    (h : Step s l s') : s.soundGeneration ≤ s'.soundGeneration := by
  cases h <;> first | exact le_refl _ | exact Nat.le_succ _

/-- The generation counter never decreases across an execution. -/
theorem Steps.gen_mono_exec {s₀ : SchedState} {tr : List Label} {s : SchedState}
    (h : Steps s₀ tr s) : s₀.soundGeneration ≤ s.soundGeneration := by
  induction h with
  | refl => exact le_refl _
  | snoc h1 hstep ih => exact le_trans ih hstep.gen_le

/-- After a submit of generation `g'` appears in the trace, the counter is at
least `g'` in every later state, in particular at the end. -/
theorem Steps.submit_le {s₀ : SchedState} {tr : List Label} {s : SchedState}
    (h : Steps s₀ tr s) :
    ∀ (i g' : ℕ), tr[i]? = some (Label.submit g') → g' ≤ s.soundGeneration := by
  induction h with
  | refl => intro i g' hi; simp at hi
  | snoc h1 hstep ih =>
    rename_i tr' s' s'' l
    intro i g' hi
    rcases lt_or_ge i tr'.length with hlt | hge
    · rw [List.getElem?_append_left hlt] at hi
      exact le_trans (ih i g' hi) hstep.gen_le
    · rw [List.getElem?_append_right hge] at hi
      have hi0 : i - tr'.length = 0 := by
        by_contra hne
        rcases Nat.exists_eq_succ_of_ne_zero hne with ⟨m, hm⟩
        rw [hm] at hi
        simp at hi
      rw [hi0] at hi
      simp only [List.getElem?_cons_zero] at hi
      injection hi with hl
      subst hl
      cases hstep
      exact Nat.le_refl _

/-- A worker that passes the delivery-time check under the lock holds the
highest generation submitted so far: every submit event preceding the
passing check carries a generation at most the worker's. -/
theorem Steps.check2_dominates {s₀ : SchedState} {tr : List Label}
    {s : SchedState} (h : Steps s₀ tr s) :
    ∀ (j w g : ℕ), tr[j]? = some (Label.check2 w g true) →
      ∀ (i g' : ℕ), i < j → tr[i]? = some (Label.submit g') → g' ≤ g := by
  induction h with
  | refl => intro j w g hj; simp at hj
  | snoc h1 hstep ih =>
    rename_i tr' s' s'' l
    intro j w g hj i g' hij hi
    rcases lt_or_ge j tr'.length with hlt | hge
    · rw [List.getElem?_append_left hlt] at hj
      rw [List.getElem?_append_left (lt_trans hij hlt)] at hi
      exact ih j w g hj i g' hij hi
    · rw [List.getElem?_append_right hge] at hj
      have hj0 : j - tr'.length = 0 := by
        by_contra hne
        rcases Nat.exists_eq_succ_of_ne_zero hne with ⟨m, hm⟩
        rw [hm] at hj
        simp at hj
      rw [hj0] at hj
      simp only [List.getElem?_cons_zero] at hj
      injection hj with hl
      subst hl
      have hilt : i < tr'.length := lt_of_lt_of_le hij (by omega)
      rw [List.getElem?_append_left hilt] at hi
      cases hstep
      rename_i hw hl2 hg
      have hle := h1.submit_le i g' hi
      omega

/-- In a state reachable from the initial scheduler state, a worker sitting
at the feeding point (it passed the second check) has a passing check2 event
for its generation in the trace. -/
theorem Steps.passedCheck2_has_check2 {tr : List Label} {s : SchedState}
    (h : Steps initSched tr s) :
    ∀ (w g : ℕ), s.workers w = some ⟨g, Phase.passedCheck2⟩ →
      ∃ j, j < tr.length ∧ tr[j]? = some (Label.check2 w g true) := by
  induction h with
  | refl => intro w g hw; simp [initSched] at hw
  | snoc h1 hstep ih =>
    rename_i tr' s' s'' l
    intro w g hw
    have lift : (∃ j, j < tr'.length ∧ tr'[j]? = some (Label.check2 w g true)) →
        ∃ j, j < (tr' ++ [l]).length ∧
          (tr' ++ [l])[j]? = some (Label.check2 w g true) := by
      rintro ⟨j, hjl, hj⟩
      refine ⟨j, by simp; omega, ?_⟩
      rw [List.getElem?_append_left hjl]
      exact hj
    cases hstep with
    | submit =>
      simp only [Function.update_apply] at hw
      split_ifs at hw with hww
      · simp at hw
      · exact lift (ih w g hw)
    | finishRender w' g' hw' =>
      simp only [Function.update_apply] at hw
      split_ifs at hw with hww
      · simp at hw
      · exact lift (ih w g hw)
    | check1Pass w' g' hw' hg =>
      simp only [Function.update_apply] at hw
      split_ifs at hw with hww
      · simp at hw
      · exact lift (ih w g hw)
    | check1Fail w' g' hw' hg =>
      simp only [Function.update_apply] at hw
      split_ifs at hw with hww
      · simp at hw
      · exact lift (ih w g hw)
    | stopSink w' g' hw' =>
      simp only [Function.update_apply] at hw
      split_ifs at hw with hww
      · simp at hw
      · exact lift (ih w g hw)
    | acquire w' g' hw' hl2 =>
      simp only [Function.update_apply] at hw
      split_ifs at hw with hww
      · simp at hw
      · exact lift (ih w g hw)
    | check2Pass w' g' hw' hl2 hg =>
      simp only [Function.update_apply] at hw
      split_ifs at hw with hww
      · subst hww
        simp only [Option.some.injEq, Worker.mk.injEq] at hw
        refine ⟨tr'.length, by simp, ?_⟩
        rw [List.getElem?_concat_length, hw.1]
      · exact lift (ih w g hw)
    | check2Fail w' g' hw' hl2 hg =>
      simp only [Function.update_apply] at hw
      split_ifs at hw with hww
      · simp at hw
      · exact lift (ih w g hw)
    | feed w' g' hw' hl2 =>
      simp only [Function.update_apply] at hw
      split_ifs at hw with hww
      · simp at hw
      · exact lift (ih w g hw)

/-- Every feed in a reachable trace was validated by a passing check2 of the
same worker and generation, at which point no higher generation had been
submitted. -/
theorem Steps.feed_dominates {tr : List Label} {s : SchedState}
    (h : Steps initSched tr s) :
    ∀ (k w g : ℕ), tr[k]? = some (Label.feed w g) →
      ∃ j, j < k ∧ tr[j]? = some (Label.check2 w g true) ∧
        ∀ (i g' : ℕ), i < j → tr[i]? = some (Label.submit g') → g' ≤ g := by
  induction h with
  | refl => intro k w g hk; simp at hk
  | snoc h1 hstep ih =>
    rename_i tr' s' s'' l
    intro k w g hk
    rcases lt_or_ge k tr'.length with hlt | hge
    · rw [List.getElem?_append_left hlt] at hk
      obtain ⟨j, hjk, hj, hdom⟩ := ih k w g hk
      have hjlen : j < tr'.length := lt_trans hjk hlt
      refine ⟨j, hjk, ?_, ?_⟩
      · rw [List.getElem?_append_left hjlen]
        exact hj
      · intro i g' hij hi
        rw [List.getElem?_append_left (lt_trans hij hjlen)] at hi
        exact hdom i g' hij hi
    · rw [List.getElem?_append_right hge] at hk
      have hk0 : k - tr'.length = 0 := by
        by_contra hne
        rcases Nat.exists_eq_succ_of_ne_zero hne with ⟨m, hm⟩
        rw [hm] at hk
        simp at hk
      rw [hk0] at hk
      simp only [List.getElem?_cons_zero] at hk
      injection hk with hl
      subst hl
      cases hstep with
      | feed w2 g2 hw hl2 =>
        obtain ⟨j, hjlen, hj⟩ := h1.passedCheck2_has_check2 w g hw
        have hjfull : (tr' ++ [Label.feed w g])[j]?
            = some (Label.check2 w g true) := by
          rw [List.getElem?_append_left hjlen]
          exact hj
        have hfull := Steps.snoc h1 (Step.feed s' w g hw hl2)
        refine ⟨j, by omega, hjfull, ?_⟩
        intro i g' hij hi
        exact hfull.check2_dominates j w g hjfull i g' hij hi

/-- C1: last-request-wins delivery.  In every trace the scheduler can
produce, audio is handed to `wave_player.feed` only by a worker that passed
the second staleness check, taken under the delivery lock immediately before
feeding; at that check the worker's generation equals the current generation
counter, so it is at least the generation of every submit that preceded the
check: a request superseded by a newer submit before its delivery-time check
never feeds, even when its rendering finished later.  (The first check
before `wave_player.stop` and the lock discipline are part of the transition
system `Step`.) -/
theorem c1_last_request_wins (tr : List Label) (h : SchedReaches tr)
    (k w g : ℕ) (hfeed : tr[k]? = some (Label.feed w g)) :
    ∃ j, j < k ∧ tr[j]? = some (Label.check2 w g true) ∧
      ∀ (i g' : ℕ), i < j → tr[i]? = some (Label.submit g') → g' ≤ g := by
  obtain ⟨s, hs⟩ := h
  exact hs.feed_dominates k w g hfeed

/-- The concrete seven-step execution used by the C1 witness: one submit
followed by its worker running through render, both checks, stop, acquire
and feed. -/
def c1trace : List Label :=
  [.submit 1, .finishRender 0, .check1 0 1 true, .stopSink 0, .acquire 0,
   .check2 0 1 true, .feed 0 1]

/-- C1 witness: on the concrete trace the feed at position 6 is justified by
the passing delivery check at an earlier position dominating all prior
submits. -/
theorem c1_witness :
    ∃ j, j < 6 ∧ c1trace[j]? = some (Label.check2 0 1 true) ∧
      ∀ (i g' : ℕ), i < j → c1trace[i]? = some (Label.submit g') → g' ≤ 1 :=
  c1_last_request_wins c1trace
    ⟨_, Steps.snoc (Steps.snoc (Steps.snoc (Steps.snoc (Steps.snoc (Steps.snoc
      (Steps.snoc Steps.refl (Step.submit initSched))
      (Step.finishRender _ 0 1 rfl))
      (Step.check1Pass _ 0 1 rfl rfl))
      (Step.stopSink _ 0 1 rfl))
      (Step.acquire _ 0 1 rfl rfl))
      (Step.check2Pass _ 0 1 rfl rfl rfl))
      (Step.feed _ 0 1 rfl rfl)⟩
    6 0 1 rfl

end Unspoken
